import Mathlib

/-
Verification of the device-connection and frame-acquisition core of the
robotic-grasping camera module (src/hardware/camera.py, class RealSenseCamera).

The Python class is embedded shallowly:
  * the mutable instance attributes (`device_id`, `width`, `height`, `fps`,
    `pipeline`, `scale`, `intrinsics`) become the fields of `CameraState`;
  * the pyrealsense2 driver layer is an explicit `Driver` record supplying
    device enumeration, pipeline start success/failure, calibration values,
    frames and color-grid alignment;
  * logging calls become structured `Event` values carried in the result of
    `connect`, with their original severity recoverable through `Event.level`;
  * raised exceptions become explicit error results (`ConnectError`,
    `AcquireError`), with the post-raise attribute state kept, as in Python;
  * float arithmetic is modelled over the rationals.
-/

set_option autoImplicit false

namespace RoboticGrasping

/-- One enumerated device: serial number and human-readable name, as collected
by `RealSenseCamera.get_available_devices`. -/
structure DeviceRecord where
  serial : String
  name : String
  deriving DecidableEq, Repr

/-- Color-stream intrinsics as stored by `connect` (obtained whole from the
driver; the class never computes with the individual fields). -/
structure Intrinsics where
  fx : ℚ
  fy : ℚ
  ppx : ℚ
  ppy : ℚ
  width : Nat
  height : Nat
  deriving DecidableEq, Repr

/-- The `rs.pipeline()` object held in `self.pipeline`: the serial and stream
configuration it was started with, whether `start` succeeded, and a cursor
into the driver frame stream. -/
structure Pipeline where
  serial : String
  width : Nat
  height : Nat
  fps : Nat
  started : Bool
  nextFrame : Nat
  deriving DecidableEq, Repr

/-- The instance attributes of `RealSenseCamera` set in `__init__`. -/
structure CameraState where
  device_id : Option String
  width : Nat
  height : Nat
  fps : Nat
  pipeline : Option Pipeline
  scale : Option ℚ
  intrinsics : Option Intrinsics
  deriving DecidableEq, Repr

/-- `RealSenseCamera.__init__`: stores the connection configuration and sets
`pipeline`, `scale` and `intrinsics` to `None`. -/
def RealSenseCamera.mkInit (device_id : Option String) (width height fps : Nat) :
    CameraState :=
  { device_id := device_id, width := width, height := height, fps := fps,
    pipeline := none, scale := none, intrinsics := none }

/-- A raw synchronized frame pair as returned by `wait_for_frames`; its content
is only ever inspected through the driver alignment step. -/
structure RawFramePair where
  seq : Nat
  deriving DecidableEq, Repr

/-- The result of `rs.align(rs.stream.color).process(frames)`: a raw 16-bit
depth grid and a color grid on the color stream pixel grid. -/
structure AlignedFramePair where
  depthData : List (List Nat)
  colorData : List (List (Nat × Nat × Nat))
  deriving DecidableEq, Repr

/-- The pyrealsense2 driver layer, the external collaborator of the class:
attached devices, whether `pipeline.start` succeeds for a given serial and
stream configuration, the per-device calibration values, the frame stream and
the alignment procedure. -/
structure Driver where
  devices : List DeviceRecord
  startOk : String → Nat → Nat → Nat → Bool
  intrinsicsOf : String → Intrinsics
  depthScaleOf : String → ℚ
  frames : Nat → Option RawFramePair
  alignToColor : RawFramePair → AlignedFramePair

/-- `RealSenseCamera.get_available_devices`: queries the driver context and
returns serial/name records for every attached device. -/
def get_available_devices (drv : Driver) : List DeviceRecord :=
  drv.devices

/-- Python `str` applied to the optional `device_id` attribute, as in
`config.enable_device(str(self.device_id))`. -/
def pyStr : Option String → String
  | none => "None"
  | some s => s

/-- Severity levels of the module logger. -/
inductive Level where
  | info
  | warning
  | error
  deriving DecidableEq, Repr

/-- The observable events of `connect`: one constructor per `logger.*` call in
the source, carrying the data interpolated into the message, plus the
`pipeline.start` driver action. -/
inductive Event where
  | noDeviceIdUsingFirst (serial name : String)
  | requestedDeviceNotFound (requested : String) (available : List String)
  | usingFirstAvailable (serial name : String)
  | startPipeline (serial : String) (width height fps : Nat)
  | connectedTo (serial : String)
  | startFailed (serial : String)
  deriving DecidableEq, Repr

/-- Log severity of an event; `startPipeline` is a driver action, not a log
line. -/
def Event.level : Event → Option Level
  | .noDeviceIdUsingFirst _ _ => some .info
  | .requestedDeviceNotFound _ _ => some .warning
  | .usingFirstAvailable _ _ => some .info
  | .startPipeline _ _ _ _ => none
  | .connectedTo _ => some .info
  | .startFailed _ => some .error

def Event.isWarning (e : Event) : Bool :=
  match e.level with
  | some Level.warning => true
  | _ => false

def Event.isStart : Event → Bool
  | .startPipeline _ _ _ _ => true
  | _ => false

/-- The failures `connect` can raise: `RuntimeError("No RealSense devices
found")` and `RuntimeError("Could not connect to camera ...")`. -/
inductive ConnectError where
  | noDeviceFound
  | connectionFailed (serial : String)
  deriving DecidableEq, Repr

/-- Outcome of one `connect` call: the events emitted, the instance state after
the call (Python keeps the attributes mutated so far even when it raises), and
the error if it raised. -/
structure ConnectOutcome where
  events : List Event
  state : CameraState
  result : Option ConnectError
  deriving Repr

/-- Second half of `RealSenseCamera.connect`, after device selection:
`self.pipeline = rs.pipeline()`, stream configuration bound to
`str(self.device_id)`, `pipeline.start`, and on success the extraction of
intrinsics and depth scale into the instance. -/
def startAndCalibrate (drv : Driver) (st : CameraState) (evs : List Event) :
    ConnectOutcome :=
  let serial := pyStr st.device_id
  let unstarted : Pipeline :=
    { serial := serial, width := st.width, height := st.height, fps := st.fps,
      started := false, nextFrame := 0 }
  let evs2 := evs ++ [Event.startPipeline serial st.width st.height st.fps]
  if drv.startOk serial st.width st.height st.fps then
    { events := evs2 ++ [Event.connectedTo serial],
      state := { st with
        pipeline := some { unstarted with started := true },
        intrinsics := some (drv.intrinsicsOf serial),
        scale := some (drv.depthScaleOf serial) },
      result := none }
  else
    { events := evs2 ++ [Event.startFailed serial],
      state := { st with pipeline := some unstarted },
      result := some (ConnectError.connectionFailed serial) }

/-- `RealSenseCamera.connect`: enumerate devices, raise if none; if
`device_id` is `None` take the first device (info log); if it is set but not
among the enumerated serials, warn and fall back to the first device; then
start and calibrate the pipeline. -/
def connect (drv : Driver) (st : CameraState) : ConnectOutcome :=
  match get_available_devices drv with
  | [] => { events := [], state := st, result := some ConnectError.noDeviceFound }
  | d0 :: rest =>
    match st.device_id with
    | none =>
      let st2 := { st with device_id := some d0.serial }
      startAndCalibrate drv st2 [Event.noDeviceIdUsingFirst d0.serial d0.name]
    | some id =>
      let device_serials := (d0 :: rest).map DeviceRecord.serial
      if id ∈ device_serials then
        startAndCalibrate drv st []
      else
        let st2 := { st with device_id := some d0.serial }
        startAndCalibrate drv st2
          [Event.requestedDeviceNotFound id device_serials,
           Event.usingFirstAvailable d0.serial d0.name]

/-- Failures of acquisition. Python raises `AttributeError` when
`self.pipeline` is `None` and `RuntimeError` when the pipeline was created but
never started or when `wait_for_frames` times out; the spec taxonomy classes
the first two as `NotConnected` and the timeout as `FrameTimeout`. -/
inductive AcquireError where
  | notConnected
  | frameTimeout
  deriving DecidableEq, Repr

/-- The dictionary returned by `get_image_bundle`: an HxWx3 color image and an
HxWx1 metric depth image. -/
structure FrameBundle where
  rgb : List (List (Nat × Nat × Nat))
  aligned_depth : List (List (List ℚ))
  deriving DecidableEq, Repr

/-- `RealSenseCamera.get_image_bundle`: wait for frames, align depth to the
color grid, convert the raw depth to float and multiply it by `self.scale`
once, take the color buffer unchanged, give depth a trailing channel axis
(`np.expand_dims(depth_image, axis=2)`), and package both. -/
def get_image_bundle (drv : Driver) (st : CameraState) :
    Except AcquireError (FrameBundle × CameraState) :=
  match st.pipeline with
  | none => Except.error AcquireError.notConnected
  | some p =>
    if p.started then
      match drv.frames p.nextFrame with
      | none => Except.error AcquireError.frameTimeout
      | some raw =>
        match st.scale with
        | none => Except.error AcquireError.notConnected
        | some sc =>
          let aligned := drv.alignToColor raw
          let depth_image := aligned.depthData.map
            (fun row => row.map (fun v : ℕ => (v : ℚ) * sc))
          let color_image := aligned.colorData
          let depth3 := depth_image.map (fun row => row.map (fun x => [x]))
          Except.ok
            ({ rgb := color_image, aligned_depth := depth3 },
             { st with pipeline := some { p with nextFrame := p.nextFrame + 1 } })
    else
      Except.error AcquireError.notConnected

/-- Modelled from the spec: `disconnect()` is described in §4.2 of the design
("scoped release of the pipeline and any driver-held resources; idempotent;
safe to call even if never successfully connected (no-op)") but is absent from
src/hardware/camera.py; per §3 the calibration values (intrinsics, depth
scale) are torn down when the connection is closed. -/
def disconnect (st : CameraState) : CameraState :=
  { st with pipeline := none, scale := none, intrinsics := none }

/-! Concrete drivers and states used to instantiate the theorems. -/

/-- A driver with a single attached device, the successful-start path, depth
scale 0.001 m per raw unit, and constant frames whose aligned depth grid is
`[[2000]]` with a 1x1 color grid. -/
def drvOne : Driver :=
  { devices := [{ serial := "111", name := "D405" }],
    startOk := fun _ _ _ _ => true,
    intrinsicsOf := fun _ =>
      { fx := 0, fy := 0, ppx := 0, ppy := 0, width := 640, height := 480 },
    depthScaleOf := fun _ => 1 / 1000,
    frames := fun n => some { seq := n },
    alignToColor := fun _ => { depthData := [[2000]], colorData := [[(0, 0, 0)]] } }

/-- A driver with two attached devices. -/
def drvTwo : Driver :=
  { drvOne with
    devices := [{ serial := "111", name := "D405" }, { serial := "222", name := "D415" }] }

/-- A driver that enumerates no devices. -/
def drvEmpty : Driver :=
  { devices := [],
    startOk := fun _ _ _ _ => false,
    intrinsicsOf := fun _ =>
      { fx := 0, fy := 0, ppx := 0, ppy := 0, width := 0, height := 0 },
    depthScaleOf := fun _ => 0,
    frames := fun _ => none,
    alignToColor := fun _ => { depthData := [], colorData := [] } }

/-- A freshly constructed camera with no device preference. -/
def stNone : CameraState := RealSenseCamera.mkInit none 640 480 30

/-- A freshly constructed camera requesting the absent serial 999. -/
def st999 : CameraState := RealSenseCamera.mkInit (some "999") 640 480 30

/-- A freshly constructed camera requesting the attached serial 222. -/
def st222 : CameraState := RealSenseCamera.mkInit (some "222") 640 480 30

/-- A freshly constructed camera with a device preference and non-default
stream configuration. -/
def st7 : CameraState := RealSenseCamera.mkInit (some "7") 320 240 15

/-- The camera state after `connect drvOne stNone` and one acquisition. -/
def stW1 : CameraState :=
  { device_id := some "111", width := 640, height := 480, fps := 30,
    pipeline := some { serial := "111", width := 640, height := 480, fps := 30,
                       started := true, nextFrame := 1 },
    scale := some (1 / 1000),
    intrinsics := some { fx := 0, fy := 0, ppx := 0, ppy := 0, width := 640, height := 480 } }

/-- The camera state after `connect drvOne stNone` and two acquisitions. -/
def stW2 : CameraState :=
  { stW1 with
    pipeline := some { serial := "111", width := 640, height := 480, fps := 30,
                       started := true, nextFrame := 2 } }

/-- The bundle `drvOne` frames produce: a 1x1 rgb grid and the raw depth value
2000 multiplied by the scale 0.001, with its trailing channel axis. -/
def bW : FrameBundle :=
  { rgb := [[(0, 0, 0)]], aligned_depth := [[[((2000 : ℕ) : ℚ) * (1 / 1000)]]] }

/-! Helper lemmas shared by the claim theorems. -/

theorem startAndCalibrate_ok (drv : Driver) (st : CameraState) (evs : List Event)
    (s : String) (hid : st.device_id = some s)
    (h : (startAndCalibrate drv st evs).result = none) :
    (startAndCalibrate drv st evs).state =
      { st with
        pipeline := some { serial := s, width := st.width, height := st.height,
                           fps := st.fps, started := true, nextFrame := 0 },
        intrinsics := some (drv.intrinsicsOf s),
        scale := some (drv.depthScaleOf s) } := by
  have hids : pyStr st.device_id = s := by rw [hid]; rfl
  simp only [startAndCalibrate, hids] at h ⊢
  split at h
  case isTrue hc => rw [if_pos hc]
  case isFalse hc => simp at h

theorem connect_ok_state (drv : Driver) (st : CameraState)
    (h : (connect drv st).result = none) :
    ∃ serial,
      (connect drv st).state.device_id = some serial ∧
      (connect drv st).state.pipeline =
        some { serial := serial, width := st.width, height := st.height,
               fps := st.fps, started := true, nextFrame := 0 } ∧
      (connect drv st).state.scale = some (drv.depthScaleOf serial) ∧
      (connect drv st).state.width = st.width ∧
      (connect drv st).state.height = st.height ∧
      (connect drv st).state.fps = st.fps := by
  cases hdev : drv.devices with
  | nil =>
    simp only [connect, get_available_devices, hdev] at h
    simp at h
  | cons d0 rest =>
    cases hid : st.device_id with
    | none =>
      simp only [connect, get_available_devices, hdev, hid] at h ⊢
      have hst := startAndCalibrate_ok drv _ _ d0.serial rfl h
      rw [hst]
      exact ⟨d0.serial, rfl, rfl, rfl, rfl, rfl, rfl⟩
    | some id =>
      simp only [connect, get_available_devices, hdev, hid] at h ⊢
      by_cases hmem : id ∈ (d0 :: rest).map DeviceRecord.serial
      · rw [if_pos hmem] at h ⊢
        have hst := startAndCalibrate_ok drv _ _ id hid h
        rw [hst]
        exact ⟨id, hid, rfl, rfl, rfl, rfl, rfl⟩
      · rw [if_neg hmem] at h ⊢
        have hst := startAndCalibrate_ok drv _ _ d0.serial rfl h
        rw [hst]
        exact ⟨d0.serial, rfl, rfl, rfl, rfl, rfl, rfl⟩

theorem get_image_bundle_ok_spec (drv : Driver) (st : CameraState) (p : Pipeline)
    (sc : ℚ) (raw : RawFramePair)
    (hp : st.pipeline = some p) (hs : p.started = true)
    (hf : drv.frames p.nextFrame = some raw)
    (hsc : st.scale = some sc) :
    get_image_bundle drv st =
      Except.ok
        ({ rgb := (drv.alignToColor raw).colorData,
           aligned_depth := (drv.alignToColor raw).depthData.map
             (fun row => row.map (fun v : ℕ => [(v : ℚ) * sc])) },
         { st with pipeline := some { p with nextFrame := p.nextFrame + 1 } }) := by
  simp only [get_image_bundle, hp, hs, hf, hsc, if_true]
  simp [List.map_map, Function.comp]

/-! Claim theorems. -/

/-- C3: for every empty enumeration result, `connect` fails with the
`NoDeviceFound` error kind, emits no events (in particular no pipeline start),
and leaves the pipeline attribute untouched. -/
theorem connect_empty_fails_noDeviceFound (drv : Driver) (st : CameraState)
    (hdev : drv.devices = []) :
    (connect drv st).result = some ConnectError.noDeviceFound ∧
    (connect drv st).events = [] ∧
    (connect drv st).state.pipeline = st.pipeline := by
  simp [connect, get_available_devices, hdev]

/-- Witness for C3 at a driver that enumerates no devices. -/
theorem connect_empty_fails_noDeviceFound_witness :
    (connect drvEmpty stNone).result = some ConnectError.noDeviceFound ∧
    (connect drvEmpty stNone).events = [] ∧
    (connect drvEmpty stNone).state.pipeline = stNone.pipeline :=
  connect_empty_fails_noDeviceFound drvEmpty stNone rfl

/-- C10: when `connect` fails because enumeration returned no devices, the
whole camera state — `device_id`, `pipeline`, `scale`, `intrinsics` and the
stream configuration — is exactly what it was before the call. -/
theorem connect_empty_atomic (drv : Driver) (st : CameraState)
    (hdev : drv.devices = []) :
    (connect drv st).state = st ∧
    (connect drv st).result = some ConnectError.noDeviceFound := by
  simp [connect, get_available_devices, hdev]

/-- Witness for C10 at a driver that enumerates no devices and a camera with a
device preference and non-default stream configuration. -/
theorem connect_empty_atomic_witness :
    (connect drvEmpty st7).state = st7 ∧
    (connect drvEmpty st7).result = some ConnectError.noDeviceFound :=
  connect_empty_atomic drvEmpty st7 rfl

/-- C7: for every non-empty enumeration result, `connect` with `device_id`
unset selects the serial of the device at index 0, emits no warning, and
records the choice through an informational event. -/
theorem connect_unset_selects_first (drv : Driver) (st : CameraState)
    (d0 : DeviceRecord) (rest : List DeviceRecord)
    (hdev : drv.devices = d0 :: rest) (hid : st.device_id = none) :
    (connect drv st).state.device_id = some d0.serial ∧
    List.filter Event.isWarning (connect drv st).events = [] ∧
    Event.noDeviceIdUsingFirst d0.serial d0.name ∈ (connect drv st).events ∧
    Event.level (Event.noDeviceIdUsingFirst d0.serial d0.name) = some Level.info := by
  simp only [connect, get_available_devices, hdev, hid]
  cases hok : drv.startOk d0.serial st.width st.height st.fps <;>
    simp [startAndCalibrate, pyStr, hok, Event.isWarning, Event.level, List.filter]

/-- Witness for C7 at a concrete one-device driver. -/
theorem connect_unset_selects_first_witness :
    (connect drvOne stNone).state.device_id = some "111" ∧
    List.filter Event.isWarning (connect drvOne stNone).events = [] ∧
    Event.noDeviceIdUsingFirst "111" "D405" ∈ (connect drvOne stNone).events ∧
    Event.level (Event.noDeviceIdUsingFirst "111" "D405") = some Level.info :=
  connect_unset_selects_first drvOne stNone { serial := "111", name := "D405" } [] rfl rfl

/-- C8: for every enumeration result containing the requested serial `s`,
`connect` keeps `s` as the selected device, emits no warning, and binds the
started pipeline to `s`. -/
theorem connect_matching_serial (drv : Driver) (st : CameraState) (s : String)
    (hid : st.device_id = some s)
    (hmem : s ∈ drv.devices.map DeviceRecord.serial) :
    (connect drv st).state.device_id = some s ∧
    List.filter Event.isWarning (connect drv st).events = [] ∧
    Event.startPipeline s st.width st.height st.fps ∈ (connect drv st).events := by
  cases hdev : drv.devices with
  | nil => rw [hdev] at hmem; simp at hmem
  | cons d0 rest =>
    rw [hdev] at hmem
    simp only [connect, get_available_devices, hdev, hid]
    rw [if_pos hmem]
    cases hok : drv.startOk s st.width st.height st.fps <;>
      simp [startAndCalibrate, pyStr, hid, hok, Event.isWarning, Event.level, List.filter]

/-- Witness for C8 at a two-device driver whose second serial is requested. -/
theorem connect_matching_serial_witness :
    (connect drvTwo st222).state.device_id = some "222" ∧
    List.filter Event.isWarning (connect drvTwo st222).events = [] ∧
    Event.startPipeline "222" 640 480 30 ∈ (connect drvTwo st222).events :=
  connect_matching_serial drvTwo st222 "222" rfl (by decide)

/-- C1: for every non-empty enumeration result that does not contain the
requested serial `s`, `connect` emits exactly one warning event, carrying `s`
and the available serials, falls back to the serial at index 0, and succeeds
exactly when the driver start for that fallback serial succeeds — the
mismatch itself never causes failure. -/
theorem connect_mismatch_falls_back (drv : Driver) (st : CameraState) (s : String)
    (d0 : DeviceRecord) (rest : List DeviceRecord)
    (hdev : drv.devices = d0 :: rest)
    (hid : st.device_id = some s)
    (hmiss : s ∉ (d0 :: rest).map DeviceRecord.serial) :
    List.filter Event.isWarning (connect drv st).events =
      [Event.requestedDeviceNotFound s ((d0 :: rest).map DeviceRecord.serial)] ∧
    (connect drv st).state.device_id = some d0.serial ∧
    ((connect drv st).result = none ↔
      drv.startOk d0.serial st.width st.height st.fps = true) := by
  simp only [connect, get_available_devices, hdev, hid]
  rw [if_neg hmiss]
  cases hok : drv.startOk d0.serial st.width st.height st.fps <;>
    simp [startAndCalibrate, pyStr, hok, Event.isWarning, Event.level, List.filter]

/-- Witness for C1: serial 999 requested, only 111 attached. -/
theorem connect_mismatch_falls_back_witness :
    List.filter Event.isWarning (connect drvOne st999).events =
      [Event.requestedDeviceNotFound "999" ["111"]] ∧
    (connect drvOne st999).state.device_id = some "111" ∧
    ((connect drvOne st999).result = none ↔
      drvOne.startOk "111" 640 480 30 = true) :=
  connect_mismatch_falls_back drvOne st999 "999" { serial := "111", name := "D405" } []
    rfl rfl (by decide)

/-- C6: every acquisition on a camera whose pipeline is absent or was never
successfully started fails with the `NotConnected` error kind. -/
theorem acquire_without_connection (drv : Driver) (st : CameraState)
    (h : ∀ p, st.pipeline = some p → p.started = false) :
    get_image_bundle drv st = Except.error AcquireError.notConnected := by
  cases hp : st.pipeline with
  | none => simp [get_image_bundle, hp]
  | some p =>
    have hs := h p hp
    simp [get_image_bundle, hp, hs]

/-- Witness for C6: acquisition on a freshly constructed, never-connected
camera. -/
theorem acquire_without_connection_witness :
    get_image_bundle drvOne stNone = Except.error AcquireError.notConnected :=
  acquire_without_connection drvOne stNone
    (fun p hp => by simp [stNone, RealSenseCamera.mkInit] at hp)

/-- C9: `disconnect` (modelled from the spec, §4.2) releases the pipeline and
the connection-scoped calibration values, is idempotent, and is a no-op on a
camera that was never connected. -/
theorem disconnect_idempotent_noop (st : CameraState) :
    disconnect (disconnect st) = disconnect st ∧
    (disconnect st).pipeline = none ∧
    (disconnect st).scale = none ∧
    (disconnect st).intrinsics = none ∧
    (∀ did w h f, disconnect (RealSenseCamera.mkInit did w h f) =
      RealSenseCamera.mkInit did w h f) :=
  ⟨rfl, rfl, rfl, rfl, fun _ _ _ _ => rfl⟩

/-- C2: after a successful `connect`, the stored depth scale is the driver
scale of the selected device; it is unchanged by acquisition; and each of two
successive acquisitions returns a depth image whose every pixel is its own
fresh raw aligned value multiplied by that scale exactly once — the second
call scales new raw data, never the first bundle. -/
theorem acquire_applies_scale_once (drv : Driver) (st0 st1 st2 : CameraState)
    (b1 b2 : FrameBundle) (raw1 raw2 : RawFramePair) (sc : ℚ)
    (hconn : (connect drv st0).result = none)
    (hsc : (connect drv st0).state.scale = some sc)
    (hf1 : drv.frames 0 = some raw1)
    (hf2 : drv.frames 1 = some raw2)
    (h1 : get_image_bundle drv (connect drv st0).state = Except.ok (b1, st1))
    (h2 : get_image_bundle drv st1 = Except.ok (b2, st2)) :
    (∃ serial, (connect drv st0).state.device_id = some serial ∧
       sc = drv.depthScaleOf serial) ∧
    st1.scale = some sc ∧
    b1.aligned_depth =
      (drv.alignToColor raw1).depthData.map
        (fun row => row.map (fun v : ℕ => [(v : ℚ) * sc])) ∧
    b2.aligned_depth =
      (drv.alignToColor raw2).depthData.map
        (fun row => row.map (fun v : ℕ => [(v : ℚ) * sc])) := by
  obtain ⟨serial, hdid, hpipe, hscale, -, -, -⟩ := connect_ok_state drv st0 hconn
  have hsc2 : sc = drv.depthScaleOf serial := by
    rw [hscale] at hsc
    exact (Option.some.inj hsc).symm
  have hspec1 := get_image_bundle_ok_spec drv (connect drv st0).state _ sc raw1
    hpipe rfl hf1 hsc
  rw [hspec1] at h1
  injection h1 with hpair1
  injection hpair1 with hb1 hst1
  subst hb1
  subst hst1
  have hspec2 := get_image_bundle_ok_spec drv
    { (connect drv st0).state with
        pipeline := some { serial := serial, width := st0.width, height := st0.height,
                           fps := st0.fps, started := true, nextFrame := 1 } }
    { serial := serial, width := st0.width, height := st0.height, fps := st0.fps,
      started := true, nextFrame := 1 }
    sc raw2 rfl rfl hf2 hsc
  have h2b := hspec2.symm.trans h2
  injection h2b with hpair2
  injection hpair2 with hb2 hst2
  subst hb2
  exact ⟨⟨serial, hdid, hsc2⟩, hsc, rfl, rfl⟩

/-- Witness for C2: depth scale 0.001, raw depth pixel 2000, two successive
acquisitions; the returned metric pixel is 2 meters each time
(`bW.aligned_depth = [[[2]]]`). -/
theorem acquire_applies_scale_once_witness :
    (∃ serial, (connect drvOne stNone).state.device_id = some serial ∧
       (1 : ℚ) / 1000 = drvOne.depthScaleOf serial) ∧
    stW1.scale = some ((1 : ℚ) / 1000) ∧
    bW.aligned_depth =
      (drvOne.alignToColor { seq := 0 }).depthData.map
        (fun row => row.map (fun v : ℕ => [(v : ℚ) * ((1 : ℚ) / 1000)])) ∧
    bW.aligned_depth =
      (drvOne.alignToColor { seq := 1 }).depthData.map
        (fun row => row.map (fun v : ℕ => [(v : ℚ) * ((1 : ℚ) / 1000)])) :=
  acquire_applies_scale_once drvOne stNone stW1 stW2 bW bW
    { seq := 0 } { seq := 1 } ((1 : ℚ) / 1000)
    rfl rfl rfl rfl rfl rfl

/-- The raw depth value 2000 under scale 0.001 is exactly 2 meters: the
metric pixel stored in `bW`. -/
theorem bW_depth_pixel_two_meters : bW.aligned_depth = [[[(2 : ℚ)]]] := by
  norm_num [bW]

/-- C5: every bundle returned by an acquisition has an `aligned_depth` with
the same number of rows and the same per-row widths as `rgb`, and every depth
cell is a single-element channel list — given the driver alignment contract
that the aligned depth grid has the dimensions of the color grid. -/
theorem acquire_bundle_shape (drv : Driver) (st st2 : CameraState) (b : FrameBundle)
    (halign : ∀ raw, (drv.alignToColor raw).depthData.map List.length =
        (drv.alignToColor raw).colorData.map List.length)
    (hok : get_image_bundle drv st = Except.ok (b, st2)) :
    b.aligned_depth.length = b.rgb.length ∧
    b.aligned_depth.map List.length = b.rgb.map List.length ∧
    ∀ row ∈ b.aligned_depth, ∀ cell ∈ row, cell.length = 1 := by
  cases hp : st.pipeline with
  | none => simp [get_image_bundle, hp] at hok
  | some p =>
    cases hs : p.started with
    | false => simp [get_image_bundle, hp, hs] at hok
    | true =>
      cases hf : drv.frames p.nextFrame with
      | none => simp [get_image_bundle, hp, hs, hf] at hok
      | some raw =>
        cases hsc : st.scale with
        | none => simp [get_image_bundle, hp, hs, hf, hsc] at hok
        | some sc =>
          have hspec := get_image_bundle_ok_spec drv st p sc raw hp hs hf hsc
          have hok2 := hspec.symm.trans hok
          injection hok2 with hpair
          injection hpair with hb hst
          subst hb
          refine ⟨?_, ?_, ?_⟩
          · have hlen := congrArg List.length (halign raw)
            simpa [List.length_map] using hlen
          · simpa [List.map_map, Function.comp_def, List.length_map] using halign raw
          · intro row hrow cell hcell
            simp only [List.mem_map] at hrow
            obtain ⟨r, -, hr⟩ := hrow
            rw [← hr] at hcell
            simp only [List.mem_map] at hcell
            obtain ⟨v, -, hv⟩ := hcell
            rw [← hv]
            rfl

/-- Witness for C5: a 1x1 frame acquired from the concrete one-device
driver. -/
theorem acquire_bundle_shape_witness :
    bW.aligned_depth.length = bW.rgb.length ∧
    bW.aligned_depth.map List.length = bW.rgb.map List.length ∧
    ∀ row ∈ bW.aligned_depth, ∀ cell ∈ row, cell.length = 1 :=
  acquire_bundle_shape drvOne (connect drvOne stNone).state stW1 bW
    (fun _ => rfl) rfl

/-- C4 counterexample: the claim says no operation changes any
`ConnectionConfig` field, but a successful `connect` on a camera constructed
with `device_id = None` overwrites `device_id` with the selected serial. -/
theorem connect_mutates_device_id :
    stNone.device_id = none ∧
    (connect drvOne stNone).result = none ∧
    (connect drvOne stNone).state.device_id = some "111" :=
  ⟨rfl, rfl, rfl⟩

/-- C4 (amended): `width`, `height` and `fps` are immutable under `connect`
and acquisition, and `device_id` is unchanged whenever it is set and matches
an enumerated serial; but `connect` overwrites `device_id` with the selected
serial when it is unset or mismatched. -/
theorem config_immutable_except_device_id (drv : Driver) (st : CameraState) :
    (connect drv st).state.width = st.width ∧
    (connect drv st).state.height = st.height ∧
    (connect drv st).state.fps = st.fps ∧
    (∀ s, st.device_id = some s → s ∈ drv.devices.map DeviceRecord.serial →
      (connect drv st).state.device_id = some s) ∧
    (∀ b st2, get_image_bundle drv st = Except.ok (b, st2) →
      st2.device_id = st.device_id ∧ st2.width = st.width ∧
      st2.height = st.height ∧ st2.fps = st.fps) := by
  have hdims : (connect drv st).state.width = st.width ∧
      (connect drv st).state.height = st.height ∧
      (connect drv st).state.fps = st.fps := by
    cases hdev : drv.devices with
    | nil => simp [connect, get_available_devices, hdev]
    | cons d0 rest =>
      cases hid : st.device_id with
      | none =>
        simp only [connect, get_available_devices, hdev, hid]
        cases hok : drv.startOk d0.serial st.width st.height st.fps <;>
          simp [startAndCalibrate, pyStr, hok]
      | some id =>
        simp only [connect, get_available_devices, hdev, hid]
        by_cases hmem : id ∈ (d0 :: rest).map DeviceRecord.serial
        · rw [if_pos hmem]
          cases hok : drv.startOk id st.width st.height st.fps <;>
            simp [startAndCalibrate, pyStr, hid, hok]
        · rw [if_neg hmem]
          cases hok : drv.startOk d0.serial st.width st.height st.fps <;>
            simp [startAndCalibrate, pyStr, hok]
  have hmatch : ∀ s, st.device_id = some s →
      s ∈ drv.devices.map DeviceRecord.serial →
      (connect drv st).state.device_id = some s := by
    intro s hid hmem
    cases hdev : drv.devices with
    | nil => rw [hdev] at hmem; simp at hmem
    | cons d0 rest =>
      rw [hdev] at hmem
      simp only [connect, get_available_devices, hdev, hid]
      rw [if_pos hmem]
      cases hok : drv.startOk s st.width st.height st.fps <;>
        simp [startAndCalibrate, pyStr, hid, hok]
  have hacq : ∀ b st2, get_image_bundle drv st = Except.ok (b, st2) →
      st2.device_id = st.device_id ∧ st2.width = st.width ∧
      st2.height = st.height ∧ st2.fps = st.fps := by
    intro b st2 hok
    cases hp : st.pipeline with
    | none => simp [get_image_bundle, hp] at hok
    | some p =>
      cases hs : p.started with
      | false => simp [get_image_bundle, hp, hs] at hok
      | true =>
        cases hf : drv.frames p.nextFrame with
        | none => simp [get_image_bundle, hp, hs, hf] at hok
        | some raw =>
          cases hsc : st.scale with
          | none => simp [get_image_bundle, hp, hs, hf, hsc] at hok
          | some sc =>
            have hspec := get_image_bundle_ok_spec drv st p sc raw hp hs hf hsc
            have hst := congrArg Prod.snd (Except.ok.inj (hspec.symm.trans hok))
            have hst2 : st2 =
                { st with pipeline := some { p with nextFrame := p.nextFrame + 1 } } :=
              hst.symm
            rw [hst2]
            exact ⟨rfl, rfl, rfl, rfl⟩
  exact ⟨hdims.1, hdims.2.1, hdims.2.2, hmatch, hacq⟩

/-- Witness for the amended C4: requesting the attached serial 222 keeps
the configuration, including `device_id`, unchanged. -/
theorem config_immutable_except_device_id_witness :
    (connect drvTwo st222).state.width = st222.width ∧
    (connect drvTwo st222).state.device_id = some "222" :=
  ⟨(config_immutable_except_device_id drvTwo st222).1,
   (config_immutable_except_device_id drvTwo st222).2.2.2.1 "222" rfl (by decide)⟩

end RoboticGrasping
